import Mathlib

/-!
Shallow embedding of the authentication subsystem of the `web2_hw_14`
FastAPI application (files `src/services/auth.py`, `src/repository/user.py`,
`src/database/models.py`, `src/routes/auth.py`), together with proofs of the
behavioural properties stated in the specification.

Modelling conventions:
* Time is `Nat` (seconds since the epoch, as `python-jose` compares `exp`
  against `timegm(datetime.utcnow().utctimetuple())`).
* A JWT is modelled structurally: `Token.signed payload key` stands for the
  compact encoding of `payload` signed with `key`; since the encoding is
  injective in (payload, key), string equality of encoded tokens is equality
  of `Token` values.  `Token.malformed s` stands for a string that is not a
  well-formed JWT.
* The SQLAlchemy session/`User` table is a `List User`; object mutation plus
  `commit` becomes a pure update of the row with the matching (unique) email.
* Raised `HTTPException`s become `Except AuthErr` results; an unhandled
  Python exception escaping a route (e.g. `AttributeError` from dereferencing
  `None`) is modelled by the dedicated error values `attributeError` /
  `keyError`, which are not part of the HTTP error taxonomy.
-/

namespace Hw14

/-- Logical payload of a JWT as built by `services/auth.py`:
`{sub, iat, exp, scope}`.  `sub = none` models a payload without a usable
`sub` claim; `scope = none` models a payload without a `scope` claim
(as produced by `create_email_token`). -/
structure Payload where
  sub : Option String
  iat : Nat
  exp : Nat
  scope : Option String
deriving DecidableEq, Repr

/-- A token string presented on the wire: either a well-formed JWT signed
with some key, or a malformed string. -/
inductive Token where
  | signed : Payload → String → Token
  | malformed : String → Token
deriving DecidableEq, Repr

/-- Failure modes of `jose.jwt.decode`. -/
inductive JwtError where
  | malformed : JwtError
  | badSignature : JwtError
  | expired : JwtError
deriving DecidableEq, Repr

/-- Model of `jose.jwt.decode(token, key, algorithm)`: rejects malformed
strings and wrong signatures with `JWTError`, and (with zero leeway) raises
`ExpiredSignatureError` exactly when `exp < now`; a token is still accepted
at the instant `now = exp`. -/
def jwt_decode (tok : Token) (key : String) (now : Nat) : Except JwtError Payload :=
  match tok with
  | .malformed _ => .error .malformed
  | .signed p k =>
    if k ≠ key then .error .badSignature
    else if p.exp < now then .error .expired
    else .ok p

/-- Seconds in a day: `datetime.timedelta`'s first positional argument is a
number of days, which is what `timedelta(expires_delta)` passes. -/
def daySeconds : Nat := 86400

/-- The `expire` computation shared verbatim by the three token creators:
`datetime.utcnow() + timedelta(expires_delta)` when `expires_delta` is
truthy (non-`None`, non-zero), else `utcnow() + <per-creator default>`. -/
def expire_at (now defaultSeconds : Nat) (expiresDelta : Option Nat) : Nat :=
  match expiresDelta with
  | some d => if d = 0 then now + defaultSeconds else now + d * daySeconds
  | none => now + defaultSeconds

/-- Source: `AuthToken.create_access_token`: payload `{sub, iat = now, exp, scope =
'access_token'}` signed with the configured secret key; default TTL 30
minutes. -/
def create_access_token (key : String) (sub : String) (now : Nat)
    (expiresDelta : Option Nat) : Token :=
  .signed { sub := some sub, iat := now, exp := expire_at now (30 * 60) expiresDelta,
            scope := some "access_token" } key

/-- Source: `AuthToken.create_refresh_token`: same as the access-token creator but
with scope `'refresh_token'`; default TTL 30 minutes. -/
def create_refresh_token (key : String) (sub : String) (now : Nat)
    (expiresDelta : Option Nat) : Token :=
  .signed { sub := some sub, iat := now, exp := expire_at now (30 * 60) expiresDelta,
            scope := some "refresh_token" } key

/-- Source: `AuthToken.create_reset_password_token`: scope `'reset_password_token'`,
default TTL 5 minutes. -/
def create_reset_password_token (key : String) (sub : String) (now : Nat)
    (expiresDelta : Option Nat) : Token :=
  .signed { sub := some sub, iat := now, exp := expire_at now (5 * 60) expiresDelta,
            scope := some "reset_password_token" } key

/-- The `exp` claim carried by a well-formed token (0 for a malformed
string, which no decoder accepts anyway). -/
def token_payload_exp : Token → Nat
  | .signed p _ => p.exp
  | .malformed _ => 0

/-- Source: `AuthToken.create_email_token`: fixed TTL of 1 hour and, notably, **no**
`scope` claim in the payload. -/
def create_email_token (key : String) (sub : String) (now : Nat) : Token :=
  .signed { sub := some sub, iat := now, exp := now + 3600, scope := none } key

/-- Errors surfaced by the auth routes.  The first five are the raised
`HTTPException`s (401/409/400/404/422 with their `detail` strings);
`attributeError` and `keyError` model unhandled Python exceptions escaping
the route (an HTTP 500, outside the designed error taxonomy). -/
inductive AuthErr where
  | unauthorized : String → AuthErr
  | conflict : String → AuthErr
  | badRequest : String → AuthErr
  | notFound : String → AuthErr
  | unprocessable : String → AuthErr
  | attributeError : AuthErr
  | keyError : AuthErr
deriving DecidableEq, Repr

/-- Returns `true` iff the result is a raised HTTP 401. -/
def isUnauthorizedErr {α : Type} : Except AuthErr α → Bool
  | .error (.unauthorized _) => true
  | _ => false

/-- Common body of the three scope-checking decoders
(`get_current_user`'s inlined decode, `refresh_token_email`,
`reset_token_email`).  Each wraps `jwt.decode` and the scope/sub checks in a
`try` block whose bare `except:` catches *everything* — including the
scope-specific `HTTPException`s raised inside the block and the `KeyError`
from a missing `'scope'`/`'sub'` claim — and re-raises the single
401 `'Could not validate credentials'`. -/
def scoped_token_email (key expectedScope : String) (tok : Token) (now : Nat) :
    Except AuthErr String :=
  match jwt_decode tok key now with
  | .error _ => .error (.unauthorized "Could not validate credentials")
  | .ok p =>
    if p.scope = some expectedScope then
      match p.sub with
      | some email => .ok email
      | none => .error (.unauthorized "Could not validate credentials")
    else .error (.unauthorized "Could not validate credentials")

/-- The token-decoding prefix of `AuthToken.get_current_user` (expected
scope `'access_token'`; every failure collapses to the single
`credentials_exception`). -/
def access_token_email (key : String) (tok : Token) (now : Nat) : Except AuthErr String :=
  scoped_token_email key "access_token" tok now

/-- Source: `AuthToken.refresh_token_email` (expected scope `'refresh_token'`). -/
def refresh_token_email (key : String) (tok : Token) (now : Nat) : Except AuthErr String :=
  scoped_token_email key "refresh_token" tok now

/-- Source: `AuthToken.reset_token_email` (expected scope `'reset_password_token'`). -/
def reset_token_email (key : String) (tok : Token) (now : Nat) : Except AuthErr String :=
  scoped_token_email key "reset_password_token" tok now

/-- Source: `AuthToken.get_email_from_token`: decodes and returns `payload['sub']`
with **no scope check**; only `JWTError` is caught (mapped to a 422), so a
payload lacking a `'sub'` claim raises an uncaught `KeyError`. -/
def get_email_from_token (key : String) (tok : Token) (now : Nat) : Except AuthErr String :=
  match jwt_decode tok key now with
  | .error _ => .error (.unprocessable "Invalid token for email verification")
  | .ok p =>
    match p.sub with
    | some email => .ok email
    | none => .error .keyError

/-- Modelled from the spec: `AuthPassword.get_hash_password` delegates to
passlib's bcrypt `CryptContext` (an external library, not part of `src/`).
The spec requires only that hashing is deterministic here, one-way, that
`verify(p, hash(p))` holds, and that the digest never equals the plaintext;
we model the digest as the plaintext tagged with a bcrypt-style prefix,
which has exactly those observable properties. -/
def get_hash_password (password : String) : String :=
  "$2b$12$" ++ password

/-- Modelled from the spec: `AuthPassword.verify_password` (passlib
`CryptContext.verify`): succeeds exactly on the password whose digest is
stored. -/
def verify_password (password hashed : String) : Bool :=
  hashed == get_hash_password password

/-- Modelled from the spec: `libgravatar.Gravatar(email).get_image()`
(external library) — some avatar URL derived from the email. -/
def gravatar_image (email : String) : String :=
  "https://www.gravatar.com/avatar/" ++ email

/-- Row of the `users` table (`database/models.py`).  `refresh_token` and
`password_reset_token` are nullable strings holding encoded JWTs; under the
token-encoding injectivity convention they are `Option Token`. -/
structure User where
  id : Nat
  username : String
  email : String
  email_confirm : Bool
  password : String
  avatar : Option String
  refresh_token : Option Token
  password_reset_token : Option Token
deriving DecidableEq, Repr

/-- Source: `repository/user.py get_user_by_email`:
`db.query(User).filter(User.email == email).first()`. -/
def get_user_by_email (email : String) (db : List User) : Option User :=
  db.find? (fun u => u.email == email)

/-- Request body of `/signup` (`schemas.UserModel`). -/
structure UserModel where
  username : String
  email : String
  password : String
deriving DecidableEq, Repr

/-- Source: `repository/user.py add_user`: inserts a new unconfirmed row (the
`email_confirm` column defaults to `False`, both token columns to `NULL`)
with a fresh autoincrement id, and returns it. -/
def add_user (body : UserModel) (db : List User) : User × List User :=
  let user : User :=
    { id := db.length + 1
      username := body.username
      email := body.email
      email_confirm := false
      password := body.password
      avatar := some (gravatar_image body.email)
      refresh_token := none
      password_reset_token := none }
  (user, db ++ [user])

/-- Source: `repository/user.py update_token`: sets `user.refresh_token` and
commits; since `email` is a unique column, mutating the fetched object is
updating the row with that email. -/
def update_token (email : String) (rt : Option Token) (db : List User) : List User :=
  db.map fun u => if u.email == email then { u with refresh_token := rt } else u

/-- Source: `repository/user.py update_reset_token`: sets
`user.password_reset_token` and commits. -/
def update_reset_token (email : String) (rt : Option Token) (db : List User) : List User :=
  db.map fun u => if u.email == email then { u with password_reset_token := rt } else u

/-- Source: `repository/user.py update_password`: sets `user.password` and commits. -/
def update_password (email : String) (pw : String) (db : List User) : List User :=
  db.map fun u => if u.email == email then { u with password := pw } else u

/-- Source: `repository/user.py verify_email`: sets `user.email_confirm = True` and
commits. -/
def verify_email (email : String) (db : List User) : List User :=
  db.map fun u => if u.email == email then { u with email_confirm := true } else u

/-- The access/refresh token pair returned by `/login` and
`/refresh_token` (`schemas.Token`). -/
structure TokenPair where
  access_token : Token
  refresh_token : Token
deriving DecidableEq, Repr

/-- Source: `routes/auth.py sign_up`: 409 Conflict if the email is taken, otherwise
hash the password, persist the new user, fire the (external, best-effort)
confirmation email, and return the user.  Result paired with the post-state
of the store. -/
def sign_up (body : UserModel) (db : List User) :
    Except AuthErr User × List User :=
  match get_user_by_email body.email db with
  | some _ => (.error (.conflict "This email is already in use"), db)
  | none =>
    let hashed := get_hash_password body.password
    let (newUser, db') := add_user { body with password := hashed } db
    (.ok newUser, db')

/-- Source: `routes/auth.py login`: 401 `'Invalid email'` when no user, then 401
`'Invalid password'` on hash mismatch, then 401 `'check {email} to Confirm
account'` when unconfirmed; on success issues the access/refresh pair and
persists the new refresh token. -/
def login (key : String) (username password : String) (now : Nat) (db : List User) :
    Except AuthErr TokenPair × List User :=
  match get_user_by_email username db with
  | none => (.error (.unauthorized "Invalid email"), db)
  | some user =>
    if ¬ verify_password password user.password then
      (.error (.unauthorized "Invalid password"), db)
    else if ¬ user.email_confirm then
      (.error (.unauthorized ("check " ++ user.email ++ " to Confirm account")), db)
    else
      let accessToken := create_access_token key user.email now none
      let refreshToken := create_refresh_token key user.email now none
      (.ok ⟨accessToken, refreshToken⟩, update_token user.email (some refreshToken) db)

/-- Source: `routes/auth.py refresh_token`: decode the presented credential with
expected scope `'refresh_token'`; fetch the user by the subject email
(dereferencing `user.refresh_token` without a `None` check — an
`AttributeError` when no such user exists); if the stored token differs
from the presented one, clear it and fail 401; otherwise rotate: issue a
fresh pair and persist the new refresh token. -/
def refresh_token_route (key : String) (tok : Token) (now : Nat) (db : List User) :
    Except AuthErr TokenPair × List User :=
  match refresh_token_email key tok now with
  | .error e => (.error e, db)
  | .ok email =>
    match get_user_by_email email db with
    | none => (.error .attributeError, db)
    | some user =>
      if user.refresh_token ≠ some tok then
        (.error (.unauthorized "Invalid refresh token"), update_token email none db)
      else
        let accessToken := create_access_token key email now none
        let refreshToken := create_refresh_token key email now none
        (.ok ⟨accessToken, refreshToken⟩, update_token email (some refreshToken) db)

/-- Source: `routes/auth.py confirmed_email`: subject email via the scope-free
`get_email_from_token`; 400 `'Verification error'` when no user; idempotent
message when already confirmed; otherwise set `email_confirm`. -/
def confirmed_email (key : String) (tok : Token) (now : Nat) (db : List User) :
    Except AuthErr String × List User :=
  match get_email_from_token key tok now with
  | .error e => (.error e, db)
  | .ok email =>
    match get_user_by_email email db with
    | none => (.error (.badRequest "Verification error"), db)
    | some user =>
      if user.email_confirm then (.ok "Your email is already confirmed", db)
      else (.ok "Email confirmed", verify_email email db)

/-- Source: `routes/auth.py password_reset_email` (GET `/password_reset_confirm`,
the reset-token exchange): subject email via the scope-free
`get_email_from_token`; then `user.email` is dereferenced without a `None`
check (`AttributeError` when no user); mints a fresh
`reset_password_token`-scoped token, persists it on the user and returns it
in the response body. -/
def password_reset_email (key : String) (tok : Token) (now : Nat) (db : List User) :
    Except AuthErr Token × List User :=
  match get_email_from_token key tok now with
  | .error e => (.error e, db)
  | .ok email =>
    match get_user_by_email email db with
    | none => (.error .attributeError, db)
    | some user =>
      let resetTok := create_reset_password_token key user.email now none
      (.ok resetTok, update_reset_token user.email (some resetTok) db)

/-- Source: `routes/auth.py` POST `/set_new_password`: decode with expected scope
`'reset_password_token'`; `user.password_reset_token` is dereferenced
without a `None` check (`AttributeError` when no user); 401 when the stored
reset token differs from the presented one or the two password fields
differ; otherwise persist the new hash and clear the reset token. -/
def set_new_password (key : String) (tok : Token) (newPassword confirmPassword : String)
    (now : Nat) (db : List User) : Except AuthErr String × List User :=
  match reset_token_email key tok now with
  | .error e => (.error e, db)
  | .ok email =>
    match get_user_by_email email db with
    | none => (.error .attributeError, db)
    | some user =>
      if user.password_reset_token ≠ some tok then
        (.error (.unauthorized "Invalid reset token"), db)
      else if newPassword ≠ confirmPassword then
        (.error (.unauthorized "passwords do not match"), db)
      else
        let hashed := get_hash_password newPassword
        (.ok "password update successfully",
          update_reset_token email none (update_password email hashed db))

/-- The redis `email → id` cache of `AuthToken` (`self.r`); entry TTLs are
not modelled (no claim depends on cache timing). -/
abbrev CacheState := List (String × Nat)

/-- Model of `r.get(email)` — first binding wins, matching overwrite-by-`set`. -/
def cache_get (cache : CacheState) (email : String) : Option Nat :=
  (List.find? (fun e => e.1 == email) cache).map (fun e => e.2)

/-- Source: `AuthToken.get_current_user` (the protected-route guard): the decode
`try` block collapses every failure to 401 `'Could not validate
credentials'`; on cache miss the user is fetched and `user.id` dereferenced
*before* the `None` guard, so an absent identity raises `AttributeError`
(the guard `if user is None` then tests the integer id and is dead code);
on success the id is cached (with a 60 s TTL, not modelled) and returned. -/
def get_current_user (key : String) (tok : Token) (now : Nat)
    (cache : CacheState) (db : List User) : Except AuthErr Nat × CacheState :=
  match access_token_email key tok now with
  | .error e => (.error e, cache)
  | .ok email =>
    match cache_get cache email with
    | some uid => (.ok uid, cache)
    | none =>
      match get_user_by_email email db with
      | none => (.error .attributeError, cache)
      | some user => (.ok user.id, (email, user.id) :: cache)

/-- The ways the decode prefix of `get_current_user` can fail: malformed
token, wrong signing key, expired, scope claim missing or different from
`'access_token'`, or missing/null `sub` claim. -/
def access_decode_fails (key : String) (tok : Token) (now : Nat) : Prop :=
  match tok with
  | .malformed _ => True
  | .signed p k => k ≠ key ∨ p.exp < now ∨ p.scope ≠ some "access_token" ∨ p.sub = none

theorem jwt_decode_ok (p : Payload) (key : String) (now : Nat) (h : now ≤ p.exp) :
    jwt_decode (.signed p key) key now = .ok p := by
  simp [jwt_decode, Nat.not_lt.mpr h]

theorem jwt_decode_expired (p : Payload) (key : String) (now : Nat) (h : p.exp < now) :
    jwt_decode (.signed p key) key now = .error .expired := by
  simp [jwt_decode, h]

theorem scoped_token_email_ok (key S E : String) (p : Payload) (now : Nat)
    (hsub : p.sub = some E) (hscope : p.scope = some S) (h : now ≤ p.exp) :
    scoped_token_email key S (.signed p key) now = .ok E := by
  simp [scoped_token_email, jwt_decode_ok p key now h, hscope, hsub]

theorem scoped_token_email_expired (key S : String) (p : Payload) (now : Nat)
    (h : p.exp < now) :
    scoped_token_email key S (.signed p key) now
      = .error (.unauthorized "Could not validate credentials") := by
  simp [scoped_token_email, jwt_decode_expired p key now h]

theorem scoped_token_email_scope_mismatch (key S : String) (p : Payload) (now : Nat)
    (hscope : p.scope ≠ some S) :
    scoped_token_email key S (.signed p key) now
      = .error (.unauthorized "Could not validate credentials") := by
  by_cases h : p.exp < now
  · exact scoped_token_email_expired key S p now h
  · simp [scoped_token_email, jwt_decode_ok p key now (Nat.not_lt.mp h), hscope]

theorem scoped_token_email_signed_ok_case (key S : String) (p : Payload) (now : Nat)
    (he : now ≤ p.exp) :
    scoped_token_email key S (.signed p key) now
      = if p.scope = some S then
          (match p.sub with
           | some email => Except.ok email
           | none => Except.error (AuthErr.unauthorized "Could not validate credentials"))
        else Except.error (AuthErr.unauthorized "Could not validate credentials") := by
  simp only [scoped_token_email, jwt_decode_ok p key now he]

theorem scoped_token_email_ok_inv (key S : String) (tok : Token) (now : Nat) (E : String)
    (h : scoped_token_email key S tok now = .ok E) :
    ∃ p : Payload, tok = .signed p key ∧ p.sub = some E ∧ p.scope = some S ∧ now ≤ p.exp := by
  cases tok with
  | malformed s => simp [scoped_token_email, jwt_decode] at h
  | signed p k =>
    by_cases hk : k = key
    · rw [hk] at h ⊢
      by_cases he : p.exp < now
      · rw [scoped_token_email_expired key S p now he] at h
        simp at h
      · by_cases hs : p.scope = some S
        · rw [scoped_token_email_signed_ok_case key S p now (Nat.not_lt.mp he),
            if_pos hs] at h
          cases hsub : p.sub with
          | none => rw [hsub] at h; simp at h
          | some e =>
            rw [hsub] at h
            simp at h
            exact ⟨p, rfl, by rw [hsub, h], hs, Nat.not_lt.mp he⟩
        · rw [scoped_token_email_scope_mismatch key S p now hs] at h
          simp at h
    · simp [scoped_token_email, jwt_decode, hk] at h

theorem get_email_from_token_ok (key E : String) (p : Payload) (now : Nat)
    (hsub : p.sub = some E) (h : now ≤ p.exp) :
    get_email_from_token key (.signed p key) now = .ok E := by
  simp [get_email_from_token, jwt_decode_ok p key now h, hsub]

theorem get_email_from_token_expired (key : String) (p : Payload) (now : Nat)
    (h : p.exp < now) :
    get_email_from_token key (.signed p key) now
      = .error (.unprocessable "Invalid token for email verification") := by
  simp [get_email_from_token, jwt_decode_expired p key now h]

theorem get_user_by_email_some_email (E : String) (db : List User) (u : User)
    (h : get_user_by_email E db = some u) : u.email = E := by
  unfold get_user_by_email at h
  have h2 := List.find?_some h
  exact eq_of_beq h2

theorem get_user_by_email_map_if (db : List User) (E : String) (f : User → User)
    (hf : ∀ u, (f u).email = u.email) :
    get_user_by_email E (db.map fun u => if u.email == E then f u else u)
      = (get_user_by_email E db).map f := by
  induction db with
  | nil => rfl
  | cons a l ih =>
    unfold get_user_by_email at ih ⊢
    rw [List.map_cons]
    by_cases h : (a.email == E) = true
    · have hfa : ((f a).email == E) = true := by rw [hf a]; exact h
      rw [if_pos h, List.find?_cons, List.find?_cons]
      simp only [hfa, h, Option.map_some']
    · have hb : (a.email == E) = false := by simpa using h
      rw [if_neg h, List.find?_cons, List.find?_cons]
      simp only [hb]
      exact ih

theorem get_user_by_email_update_token (E : String) (rt : Option Token) (db : List User) :
    get_user_by_email E (update_token E rt db)
      = (get_user_by_email E db).map (fun u => { u with refresh_token := rt }) :=
  get_user_by_email_map_if db E _ (fun _ => rfl)

theorem get_user_by_email_update_reset_token (E : String) (rt : Option Token)
    (db : List User) :
    get_user_by_email E (update_reset_token E rt db)
      = (get_user_by_email E db).map (fun u => { u with password_reset_token := rt }) :=
  get_user_by_email_map_if db E _ (fun _ => rfl)

theorem get_user_by_email_update_password (E pw : String) (db : List User) :
    get_user_by_email E (update_password E pw db)
      = (get_user_by_email E db).map (fun u => { u with password := pw }) :=
  get_user_by_email_map_if db E _ (fun _ => rfl)

/-- C2: For every scope, subject email and ttl, decoding the issued
token with the matching expected scope returns the subject at every
timestamp up to `iat + ttl` (= the token's `exp`), and at every timestamp
strictly later the underlying `jwt.decode` fails with Expired, which the
route-level decoder surfaces as its catch-all error.  Covers all four
creators: access, refresh, reset-password (each with any `expires_delta`)
and the scope-free email token. -/
theorem token_ttl_roundtrip (key E : String) (t0 t : Nat) (d : Option Nat) :
    ((t ≤ token_payload_exp (create_access_token key E t0 d) →
        access_token_email key (create_access_token key E t0 d) t = .ok E)
      ∧ (token_payload_exp (create_access_token key E t0 d) < t →
        jwt_decode (create_access_token key E t0 d) key t = .error .expired
          ∧ access_token_email key (create_access_token key E t0 d) t
              = .error (.unauthorized "Could not validate credentials")))
    ∧ ((t ≤ token_payload_exp (create_refresh_token key E t0 d) →
        refresh_token_email key (create_refresh_token key E t0 d) t = .ok E)
      ∧ (token_payload_exp (create_refresh_token key E t0 d) < t →
        jwt_decode (create_refresh_token key E t0 d) key t = .error .expired
          ∧ refresh_token_email key (create_refresh_token key E t0 d) t
              = .error (.unauthorized "Could not validate credentials")))
    ∧ ((t ≤ token_payload_exp (create_reset_password_token key E t0 d) →
        reset_token_email key (create_reset_password_token key E t0 d) t = .ok E)
      ∧ (token_payload_exp (create_reset_password_token key E t0 d) < t →
        jwt_decode (create_reset_password_token key E t0 d) key t = .error .expired
          ∧ reset_token_email key (create_reset_password_token key E t0 d) t
              = .error (.unauthorized "Could not validate credentials")))
    ∧ ((t ≤ token_payload_exp (create_email_token key E t0) →
        get_email_from_token key (create_email_token key E t0) t = .ok E)
      ∧ (token_payload_exp (create_email_token key E t0) < t →
        jwt_decode (create_email_token key E t0) key t = .error .expired
          ∧ get_email_from_token key (create_email_token key E t0) t
              = .error (.unprocessable "Invalid token for email verification"))) := by
  refine ⟨⟨fun h => ?_, fun h => ⟨?_, ?_⟩⟩, ⟨fun h => ?_, fun h => ⟨?_, ?_⟩⟩,
          ⟨fun h => ?_, fun h => ⟨?_, ?_⟩⟩, ⟨fun h => ?_, fun h => ⟨?_, ?_⟩⟩⟩
  · exact scoped_token_email_ok key "access_token" E _ t rfl rfl h
  · exact jwt_decode_expired _ key t h
  · exact scoped_token_email_expired key "access_token" _ t h
  · exact scoped_token_email_ok key "refresh_token" E _ t rfl rfl h
  · exact jwt_decode_expired _ key t h
  · exact scoped_token_email_expired key "refresh_token" _ t h
  · exact scoped_token_email_ok key "reset_password_token" E _ t rfl rfl h
  · exact jwt_decode_expired _ key t h
  · exact scoped_token_email_expired key "reset_password_token" _ t h
  · exact get_email_from_token_ok key E _ t rfl h
  · exact jwt_decode_expired _ key t h
  · exact get_email_from_token_expired key _ t h

/-- Witness for C2 at concrete inputs: default-TTL access token issued at
time 1000 for subject `a@x.com`, decoded at the expiry instant 2800 and
just after it at 2801. -/
theorem token_ttl_roundtrip_witness :
    access_token_email "k" (create_access_token "k" "a@x.com" 1000 none) 2800
        = .ok "a@x.com"
    ∧ jwt_decode (create_access_token "k" "a@x.com" 1000 none) "k" 2801
        = .error .expired := by
  exact ⟨(token_ttl_roundtrip "k" "a@x.com" 1000 2800 none).1.1 (by decide),
         ((token_ttl_roundtrip "k" "a@x.com" 1000 2801 none).1.2 (by decide)).1⟩

/-- C6: The email-style decode path (`get_email_from_token`, used by
`confirmed_email` and by the reset-token exchange `password_reset_email`)
performs no scope check: any validly signed, unexpired token with a subject
— whatever its scope claim, e.g. an access token — is accepted and its
subject returned, and the two routes proceed on it; whereas each of the
access-, refresh- and reset-scoped decode paths rejects a token whose scope
claim differs from its expected scope. -/
theorem email_decode_scope_asymmetry (key E : String) (p : Payload) (now : Nat)
    (cache : CacheState) (db : List User) (u : User)
    (hsub : p.sub = some E) (hexp : now ≤ p.exp)
    (hu : get_user_by_email E db = some u) :
    get_email_from_token key (.signed p key) now = .ok E
    ∧ (password_reset_email key (.signed p key) now db).1
        = .ok (create_reset_password_token key u.email now none)
    ∧ (u.email_confirm = false →
        (confirmed_email key (.signed p key) now db).1 = .ok "Email confirmed")
    ∧ (p.scope ≠ some "access_token" →
        (get_current_user key (.signed p key) now cache db).1
          = .error (.unauthorized "Could not validate credentials"))
    ∧ (p.scope ≠ some "refresh_token" →
        refresh_token_email key (.signed p key) now
          = .error (.unauthorized "Could not validate credentials"))
    ∧ (p.scope ≠ some "reset_password_token" →
        reset_token_email key (.signed p key) now
          = .error (.unauthorized "Could not validate credentials")) := by
  have hget := get_email_from_token_ok key E p now hsub hexp
  refine ⟨hget, ?_, ?_, ?_, ?_, ?_⟩
  · simp [password_reset_email, hget, hu]
  · intro hconf
    simp [confirmed_email, hget, hu, hconf]
  · intro hscope
    simp [get_current_user, access_token_email,
      scoped_token_email_scope_mismatch key "access_token" p now hscope]
  · intro hscope
    simpa [refresh_token_email] using
      scoped_token_email_scope_mismatch key "refresh_token" p now hscope
  · intro hscope
    simpa [reset_token_email] using
      scoped_token_email_scope_mismatch key "reset_password_token" p now hscope

/-- Witness for C6: a concrete valid, unexpired **access**-scoped token is
accepted by the email-style path and rejected by the refresh- and
reset-scoped paths. -/
theorem email_decode_scope_asymmetry_witness :
    get_email_from_token "k"
        (.signed ⟨some "a@x.com", 0, 100, some "access_token"⟩ "k") 50 = .ok "a@x.com"
    ∧ (password_reset_email "k"
        (.signed ⟨some "a@x.com", 0, 100, some "access_token"⟩ "k") 50
        [{ id := 1, username := "u", email := "a@x.com", email_confirm := false,
           password := "h", avatar := none, refresh_token := none,
           password_reset_token := none }]).1
        = .ok (create_reset_password_token "k" "a@x.com" 50 none)
    ∧ refresh_token_email "k"
        (.signed ⟨some "a@x.com", 0, 100, some "access_token"⟩ "k") 50
        = .error (.unauthorized "Could not validate credentials")
    ∧ reset_token_email "k"
        (.signed ⟨some "a@x.com", 0, 100, some "access_token"⟩ "k") 50
        = .error (.unauthorized "Could not validate credentials") := by
  have h := email_decode_scope_asymmetry "k" "a@x.com"
    ⟨some "a@x.com", 0, 100, some "access_token"⟩ 50 []
    [{ id := 1, username := "u", email := "a@x.com", email_confirm := false,
       password := "h", avatar := none, refresh_token := none,
       password_reset_token := none }]
    { id := 1, username := "u", email := "a@x.com", email_confirm := false,
      password := "h", avatar := none, refresh_token := none,
      password_reset_token := none }
    rfl (by decide) (by decide)
  exact ⟨h.1, h.2.1, h.2.2.2.2.1 (by decide), h.2.2.2.2.2 (by decide)⟩

/-- C8: In the protected-route guard `get_current_user`, every way the
token decode can fail — malformed token, bad signature, expired, wrong or
missing scope, missing subject — yields the one generic
401 `'Could not validate credentials'`, with the cache untouched: no
failure cause is observable from the outcome. -/
theorem get_current_user_decode_failures_collapse (key : String) (tok : Token) (now : Nat)
    (cache : CacheState) (db : List User) (h : access_decode_fails key tok now) :
    get_current_user key tok now cache db
      = (.error (.unauthorized "Could not validate credentials"), cache) := by
  have hfail : access_token_email key tok now
      = .error (.unauthorized "Could not validate credentials") := by
    cases tok with
    | malformed s => simp [access_token_email, scoped_token_email, jwt_decode]
    | signed p k =>
      simp only [access_decode_fails] at h
      by_cases hk : k = key
      · rw [hk] at h ⊢
        rcases h with hk' | he | hs | hsub
        · exact absurd rfl hk'
        · simpa [access_token_email] using
            scoped_token_email_expired key "access_token" p now he
        · simpa [access_token_email] using
            scoped_token_email_scope_mismatch key "access_token" p now hs
        · by_cases he : p.exp < now
          · simpa [access_token_email] using
              scoped_token_email_expired key "access_token" p now he
          · by_cases hs : p.scope = some "access_token"
            · simp [access_token_email, scoped_token_email,
                jwt_decode_ok p key now (Nat.not_lt.mp he), hs, hsub]
            · simpa [access_token_email] using
                scoped_token_email_scope_mismatch key "access_token" p now hs
      · simp [access_token_email, scoped_token_email, jwt_decode, hk]
  simp [get_current_user, hfail]

/-- Witness for C8: a concrete malformed token is rejected with the generic
401. -/
theorem get_current_user_decode_failures_collapse_witness :
    get_current_user "k" (.malformed "not-a-jwt") 5 [] []
      = (.error (.unauthorized "Could not validate credentials"), []) :=
  get_current_user_decode_failures_collapse "k" (.malformed "not-a-jwt") 5 [] []
    (by simp [access_decode_fails])

/-- C7, a code bug.  When a validly signed, unexpired access token names
an email with no cache entry and no identity in the store, `get_current_user`
dereferences `user.id` on `None` **before** its `if user is None` guard, so
instead of the intended NotFound-surfaced-as-Unauthorized the route raises
an unhandled `AttributeError` (HTTP 500).  Evaluated here at the failing
input: token for `ghost@x.com`, empty cache, empty store. -/
theorem get_current_user_unknown_email_crashes :
    get_current_user "k" (create_access_token "k" "ghost@x.com" 0 none) 100 [] []
      = (.error .attributeError, []) := by
  rfl

/-- C10: In `refresh_token`, the reset-token exchange
(`password_reset_email`) and `set_new_password`, a token that decodes
successfully but whose subject has no identity in the store makes the route
dereference `None` and die with an unhandled `AttributeError` — not any
error of the designed taxonomy — leaving the store unchanged. -/
theorem missing_identity_attribute_error (key E : String) (t0 : Nat) (d : Option Nat)
    (now : Nat) (db : List User) (n c : String)
    (hnone : get_user_by_email E db = none) :
    (now ≤ token_payload_exp (create_refresh_token key E t0 d) →
      refresh_token_route key (create_refresh_token key E t0 d) now db
        = (.error .attributeError, db))
    ∧ (now ≤ token_payload_exp (create_email_token key E t0) →
      password_reset_email key (create_email_token key E t0) now db
        = (.error .attributeError, db))
    ∧ (now ≤ token_payload_exp (create_reset_password_token key E t0 d) →
      set_new_password key (create_reset_password_token key E t0 d) n c now db
        = (.error .attributeError, db)) := by
  refine ⟨fun h => ?_, fun h => ?_, fun h => ?_⟩
  · have hd := scoped_token_email_ok key "refresh_token" E
      { sub := some E, iat := t0, exp := expire_at t0 (30 * 60) d,
        scope := some "refresh_token" } now rfl rfl h
    simp [refresh_token_route, refresh_token_email, create_refresh_token, hd, hnone]
  · have hd := get_email_from_token_ok key E
      { sub := some E, iat := t0, exp := t0 + 3600, scope := none } now rfl h
    simp [password_reset_email, create_email_token, hd, hnone]
  · have hd := scoped_token_email_ok key "reset_password_token" E
      { sub := some E, iat := t0, exp := expire_at t0 (5 * 60) d,
        scope := some "reset_password_token" } now rfl rfl h
    simp [set_new_password, reset_token_email, create_reset_password_token, hd, hnone]

/-- Witness for C10 at concrete inputs: tokens for `ghost@x.com` against an
empty store. -/
theorem missing_identity_attribute_error_witness :
    refresh_token_route "k" (create_refresh_token "k" "ghost@x.com" 0 none) 10 []
      = (.error .attributeError, [])
    ∧ password_reset_email "k" (create_email_token "k" "ghost@x.com" 0) 10 []
      = (.error .attributeError, [])
    ∧ set_new_password "k" (create_reset_password_token "k" "ghost@x.com" 0 none)
        "a" "a" 10 [] = (.error .attributeError, []) := by
  have h := missing_identity_attribute_error "k" "ghost@x.com" 0 none 10 [] "a" "a" rfl
  exact ⟨h.1 (by decide), h.2.1 (by decide), h.2.2 (by decide)⟩

/-- C4: Starting from a store with no identity for the email, signing
up succeeds and persists exactly one identity with that email, and a second
signup with the same email (any username/password) fails with the 409
Conflict error and leaves the store — hence the stored identity — exactly
as it was after the first signup. -/
theorem signup_twice_conflict (body : UserModel) (db : List User)
    (hfresh : get_user_by_email body.email db = none) :
    (∃ u, (sign_up body db).1 = .ok u)
    ∧ ((sign_up body db).2.countP fun u => u.email == body.email) = 1
    ∧ ∀ body2 : UserModel, body2.email = body.email →
        sign_up body2 (sign_up body db).2
          = (.error (.conflict "This email is already in use"), (sign_up body db).2) := by
  have hfind : db.find? (fun u => u.email == body.email) = none := hfresh
  have h1 : sign_up body db =
      (.ok { id := db.length + 1, username := body.username, email := body.email,
             email_confirm := false, password := get_hash_password body.password,
             avatar := some (gravatar_image body.email), refresh_token := none,
             password_reset_token := none },
       db ++ [{ id := db.length + 1, username := body.username, email := body.email,
                email_confirm := false, password := get_hash_password body.password,
                avatar := some (gravatar_image body.email), refresh_token := none,
                password_reset_token := none }]) := by
    simp [sign_up, hfresh, add_user]
  have hcnt0 : (db.countP fun u => u.email == body.email) = 0 := by
    rw [List.countP_eq_zero]
    intro a ha
    simpa using List.find?_eq_none.mp hfind a ha
  refine ⟨⟨_, by rw [h1]⟩, ?_, ?_⟩
  · rw [h1]
    simp [List.countP_append, hcnt0, List.countP_cons]
  · intro body2 hb2
    rw [h1]
    have hfind2 : get_user_by_email body2.email
        (db ++ [{ id := db.length + 1, username := body.username, email := body.email,
                  email_confirm := false, password := get_hash_password body.password,
                  avatar := some (gravatar_image body.email), refresh_token := none,
                  password_reset_token := none }])
        = some { id := db.length + 1, username := body.username, email := body.email,
                 email_confirm := false, password := get_hash_password body.password,
                 avatar := some (gravatar_image body.email), refresh_token := none,
                 password_reset_token := none } := by
      unfold get_user_by_email
      rw [hb2, List.find?_append, hfind]
      simp
    simp [sign_up, hfind2]

/-- Witness for C4: concrete signup of `a@x.com` into an empty store,
repeated. -/
theorem signup_twice_conflict_witness :
    (∃ u, (sign_up ⟨"u", "a@x.com", "pw12345"⟩ []).1 = .ok u)
    ∧ ((sign_up ⟨"u", "a@x.com", "pw12345"⟩ []).2.countP fun u => u.email == "a@x.com") = 1
    ∧ sign_up ⟨"v", "a@x.com", "other"⟩ (sign_up ⟨"u", "a@x.com", "pw12345"⟩ []).2
        = (.error (.conflict "This email is already in use"),
           (sign_up ⟨"u", "a@x.com", "pw12345"⟩ []).2) := by
  have h := signup_twice_conflict ⟨"u", "a@x.com", "pw12345"⟩ [] rfl
  exact ⟨h.1, h.2.1, h.2.2 ⟨"v", "a@x.com", "other"⟩ rfl⟩

/-- C9: On every signup with a fresh email, the persisted identity's
`password` field is the `PasswordHasher` digest of the submitted password:
it verifies against the original password via `verify` and differs from
the plaintext. -/
theorem signup_password_hashed (body : UserModel) (db : List User)
    (hfresh : get_user_by_email body.email db = none) :
    ∃ u, (sign_up body db).1 = .ok u
      ∧ u.password = get_hash_password body.password
      ∧ verify_password body.password u.password = true
      ∧ u.password ≠ body.password := by
  have h1 : (sign_up body db).1
      = .ok { id := db.length + 1, username := body.username, email := body.email,
              email_confirm := false, password := get_hash_password body.password,
              avatar := some (gravatar_image body.email), refresh_token := none,
              password_reset_token := none } := by
    simp [sign_up, hfresh, add_user]
  refine ⟨_, h1, rfl, by simp [verify_password], ?_⟩
  intro h
  have h' : get_hash_password body.password = body.password := h
  have hlen := congrArg String.length h'
  rw [get_hash_password, String.length_append] at hlen
  have h7 : ("$2b$12$" : String).length = 7 := rfl
  rw [h7] at hlen
  omega

/-- Witness for C9: concrete signup of `a@x.com` into an empty store. -/
theorem signup_password_hashed_witness :
    ∃ u, (sign_up ⟨"u", "a@x.com", "pw12345"⟩ []).1 = .ok u
      ∧ u.password = get_hash_password "pw12345"
      ∧ verify_password "pw12345" u.password = true
      ∧ u.password ≠ "pw12345" :=
  signup_password_hashed ⟨"u", "a@x.com", "pw12345"⟩ [] rfl

/-- Counterexample to **C5** as stated: an identity with an unconfirmed
email and a wrong submitted password makes `login` fail with the
`'Invalid password'` variant — the password check runs *before* the
confirmation check — not with the EmailNotConfirmed variant. -/
theorem login_unconfirmed_counterexample :
    (login "k" "a@x.com" "wrong" 0
        [{ id := 1, username := "u", email := "a@x.com", email_confirm := false,
           password := get_hash_password "pw12345", avatar := none,
           refresh_token := none, password_reset_token := none }]).1
      = .error (.unauthorized "Invalid password")
    ∧ AuthErr.unauthorized "Invalid password"
        ≠ .unauthorized ("check " ++ "a@x.com" ++ " to Confirm account") := by
  constructor
  · rfl
  · decide

/-- C5 amended: For every identity whose email is not yet confirmed,
`login` always fails Unauthorized; it fails with the EmailNotConfirmed
variant exactly when the submitted password verifies against the stored
hash, and with the `'Invalid password'` variant when it does not (the
password check precedes the confirmation check). -/
theorem login_unconfirmed_amended (key username pw : String) (now : Nat)
    (db : List User) (u : User)
    (hu : get_user_by_email username db = some u)
    (hconf : u.email_confirm = false) :
    (verify_password pw u.password = true →
      (login key username pw now db).1
        = .error (.unauthorized ("check " ++ u.email ++ " to Confirm account")))
    ∧ (verify_password pw u.password = false →
      (login key username pw now db).1 = .error (.unauthorized "Invalid password"))
    ∧ isUnauthorizedErr (login key username pw now db).1 = true := by
  refine ⟨fun hv => ?_, fun hv => ?_, ?_⟩
  · simp [login, hu, hv, hconf]
  · simp [login, hu, hv]
  · cases hv : verify_password pw u.password with
    | true => simp [login, hu, hv, hconf, isUnauthorizedErr]
    | false => simp [login, hu, hv, isUnauthorizedErr]

/-- Witness for the amended C5: unconfirmed identity, correct and wrong
concrete passwords. -/
theorem login_unconfirmed_amended_witness :
    (login "k" "a@x.com" "pw12345" 0
        [{ id := 1, username := "u", email := "a@x.com", email_confirm := false,
           password := get_hash_password "pw12345", avatar := none,
           refresh_token := none, password_reset_token := none }]).1
      = .error (.unauthorized ("check " ++ "a@x.com" ++ " to Confirm account"))
    ∧ isUnauthorizedErr (login "k" "a@x.com" "pw12345" 0
        [{ id := 1, username := "u", email := "a@x.com", email_confirm := false,
           password := get_hash_password "pw12345", avatar := none,
           refresh_token := none, password_reset_token := none }]).1 = true := by
  have h := login_unconfirmed_amended "k" "a@x.com" "pw12345" 0
    [{ id := 1, username := "u", email := "a@x.com", email_confirm := false,
       password := get_hash_password "pw12345", avatar := none,
       refresh_token := none, password_reset_token := none }]
    { id := 1, username := "u", email := "a@x.com", email_confirm := false,
      password := get_hash_password "pw12345", avatar := none,
      refresh_token := none, password_reset_token := none }
    rfl rfl
  exact ⟨h.1 (by decide), h.2.2⟩

/-- C3: `set_new_password` propagates every decode failure (so success
requires a token decoding with scope `reset_password`), and given a token
decoding to a stored identity, it succeeds exactly when the presented token
equals the stored `password_reset_token` and the two password fields are
equal; on success the stored `password_reset_token` is cleared (and the new
hash persisted), so repeating the identical request at any later time fails
with a 401 Unauthorized. -/
theorem set_new_password_spec (key : String) (tok : Token) (n c : String) (now : Nat)
    (db : List User) :
    (∀ e, reset_token_email key tok now = .error e →
      set_new_password key tok n c now db = (.error e, db))
    ∧ ∀ E u, reset_token_email key tok now = .ok E → get_user_by_email E db = some u →
      (((set_new_password key tok n c now db).1 = .ok "password update successfully")
        ↔ (u.password_reset_token = some tok ∧ n = c))
      ∧ (u.password_reset_token = some tok → n = c →
          get_user_by_email E (set_new_password key tok n c now db).2
            = some { u with password := get_hash_password n, password_reset_token := none }
          ∧ ∀ now2, isUnauthorizedErr
              (set_new_password key tok n c now2 (set_new_password key tok n c now db).2).1
              = true) := by
  refine ⟨fun e he => ?_, fun E u hE hu => ?_⟩
  · simp [set_new_password, he]
  · have hE' : scoped_token_email key "reset_password_token" tok now = .ok E := hE
    obtain ⟨p, htok, hsub, hs, hle⟩ := scoped_token_email_ok_inv _ _ _ _ _ hE'
    subst htok
    constructor
    · constructor
      · intro hok
        by_cases hrt : u.password_reset_token = some (Token.signed p key)
        · by_cases hnc : n = c
          · exact ⟨hrt, hnc⟩
          · simp [set_new_password, hE, hu, hrt, hnc] at hok
        · simp [set_new_password, hE, hu, hrt] at hok
      · rintro ⟨hrt, hnc⟩
        subst hnc
        simp [set_new_password, hE, hu, hrt]
    · rintro hrt hnc
      subst hnc
      have hres : set_new_password key (.signed p key) n n now db
          = (.ok "password update successfully",
             update_reset_token E none (update_password E (get_hash_password n) db)) := by
        simp [set_new_password, hE, hu, hrt]
      rw [hres]
      have hu' : get_user_by_email E
          (update_reset_token E none (update_password E (get_hash_password n) db))
          = some { u with password := get_hash_password n, password_reset_token := none } := by
        rw [get_user_by_email_update_reset_token, get_user_by_email_update_password, hu]
        rfl
      refine ⟨hu', fun now2 => ?_⟩
      by_cases hexp2 : p.exp < now2
      · have hfail := scoped_token_email_expired key "reset_password_token" p now2 hexp2
        simp [set_new_password, reset_token_email, hfail, isUnauthorizedErr]
      · have hok2 := scoped_token_email_ok key "reset_password_token" E p now2 hsub hs
          (Nat.not_lt.mp hexp2)
        simp [set_new_password, reset_token_email, hok2, hu', isUnauthorizedErr]

/-- Witness for C3 at concrete inputs: a stored reset token is consumed by
a successful password change, and the identical repeated request fails
Unauthorized. -/
theorem set_new_password_spec_witness :
    (set_new_password "k"
        (.signed ⟨some "a@x.com", 0, 100, some "reset_password_token"⟩ "k") "npw" "npw" 50
        [{ id := 1, username := "u", email := "a@x.com", email_confirm := true,
           password := "old", avatar := none, refresh_token := none,
           password_reset_token :=
             some (.signed ⟨some "a@x.com", 0, 100, some "reset_password_token"⟩ "k") }]).1
      = .ok "password update successfully"
    ∧ get_user_by_email "a@x.com"
        (set_new_password "k"
          (.signed ⟨some "a@x.com", 0, 100, some "reset_password_token"⟩ "k") "npw" "npw" 50
          [{ id := 1, username := "u", email := "a@x.com", email_confirm := true,
             password := "old", avatar := none, refresh_token := none,
             password_reset_token :=
               some (.signed ⟨some "a@x.com", 0, 100, some "reset_password_token"⟩ "k") }]).2
      = some { id := 1, username := "u", email := "a@x.com", email_confirm := true,
               password := get_hash_password "npw", avatar := none, refresh_token := none,
               password_reset_token := none }
    ∧ isUnauthorizedErr
        (set_new_password "k"
          (.signed ⟨some "a@x.com", 0, 100, some "reset_password_token"⟩ "k") "npw" "npw" 60
          (set_new_password "k"
            (.signed ⟨some "a@x.com", 0, 100, some "reset_password_token"⟩ "k") "npw" "npw" 50
            [{ id := 1, username := "u", email := "a@x.com", email_confirm := true,
               password := "old", avatar := none, refresh_token := none,
               password_reset_token :=
                 some (.signed ⟨some "a@x.com", 0, 100, some "reset_password_token"⟩ "k") }]).2).1
      = true := by
  have h := (set_new_password_spec "k"
      (.signed ⟨some "a@x.com", 0, 100, some "reset_password_token"⟩ "k") "npw" "npw" 50
      [{ id := 1, username := "u", email := "a@x.com", email_confirm := true,
         password := "old", avatar := none, refresh_token := none,
         password_reset_token :=
           some (.signed ⟨some "a@x.com", 0, 100, some "reset_password_token"⟩ "k") }]).2
      "a@x.com"
      { id := 1, username := "u", email := "a@x.com", email_confirm := true,
        password := "old", avatar := none, refresh_token := none,
        password_reset_token :=
          some (.signed ⟨some "a@x.com", 0, 100, some "reset_password_token"⟩ "k") }
      rfl rfl
  exact ⟨h.1.mpr ⟨rfl, rfl⟩, (h.2 rfl rfl).1, (h.2 rfl rfl).2 60⟩

/-- C1: Presenting a refresh token that decodes for an existing
identity but differs from the stored one (a superseded token of the
rotation chain) makes `refresh_token` fail 401 `'Invalid refresh token'`
and clear the stored `refresh_token`; from that state every further
refresh for this identity — with any token that decodes to its email,
including the most recently issued one — fails the same way, until a
successful login persists a new refresh token, after which refreshing with
that token succeeds again. -/
theorem refresh_replay_locks_out (key : String) (db : List User) (E : String) (u : User)
    (tok : Token) (now : Nat)
    (hu : get_user_by_email E db = some u)
    (hdec : refresh_token_email key tok now = .ok E)
    (hne : u.refresh_token ≠ some tok) :
    refresh_token_route key tok now db
      = (.error (.unauthorized "Invalid refresh token"), update_token E none db)
    ∧ get_user_by_email E (update_token E none db) = some { u with refresh_token := none }
    ∧ (∀ t2 now2, refresh_token_email key t2 now2 = .ok E →
        (refresh_token_route key t2 now2 (update_token E none db)).1
          = .error (.unauthorized "Invalid refresh token"))
    ∧ (∀ pw now3 pair db3,
        login key E pw now3 (update_token E none db) = (.ok pair, db3) →
        get_user_by_email E db3 = some { u with refresh_token := some pair.refresh_token }
        ∧ ∀ now4, now4 ≤ token_payload_exp pair.refresh_token →
            ∃ pair2 db4,
              refresh_token_route key pair.refresh_token now4 db3 = (.ok pair2, db4)) := by
  have hmail : u.email = E := get_user_by_email_some_email E db u hu
  have hdb' : get_user_by_email E (update_token E none db)
      = some { u with refresh_token := none } := by
    rw [get_user_by_email_update_token, hu]
    rfl
  refine ⟨?_, hdb', fun t2 now2 hdec2 => ?_, fun pw now3 pair db3 hlogin => ?_⟩
  · simp [refresh_token_route, hdec, hu, hne]
  · simp [refresh_token_route, hdec2, hdb']
  · by_cases hv : verify_password pw u.password = true
    · by_cases hc : u.email_confirm = true
      · have hlr : login key E pw now3 (update_token E none db)
            = (.ok ⟨create_access_token key u.email now3 none,
                    create_refresh_token key u.email now3 none⟩,
               update_token u.email (some (create_refresh_token key u.email now3 none))
                 (update_token E none db)) := by
          simp [login, hdb', hv, hc]
        rw [hlr] at hlogin
        have hpair : pair = ⟨create_access_token key u.email now3 none,
            create_refresh_token key u.email now3 none⟩ := by
          have hfst := congrArg Prod.fst hlogin
          simpa using hfst.symm
        have hdb3 : db3 = update_token u.email
            (some (create_refresh_token key u.email now3 none)) (update_token E none db) := by
          have hsnd := congrArg Prod.snd hlogin
          simpa using hsnd.symm
        subst hpair
        subst hdb3
        have hdb3' : get_user_by_email E
            (update_token u.email (some (create_refresh_token key u.email now3 none))
              (update_token E none db))
            = some { u with refresh_token := some (create_refresh_token key u.email now3 none) } := by
          rw [hmail, get_user_by_email_update_token, hdb']
          simp [hmail]
        refine ⟨hdb3', fun now4 h4 => ?_⟩
        have hdec4 := scoped_token_email_ok key "refresh_token" u.email
          { sub := some u.email, iat := now3, exp := expire_at now3 (30 * 60) none,
            scope := some "refresh_token" } now4 rfl rfl h4
        rw [hmail] at hdec4 hdb3' ⊢
        have hdec4' : refresh_token_email key (create_refresh_token key E now3 none) now4
            = .ok E := hdec4
        refine ⟨⟨create_access_token key E now4 none, create_refresh_token key E now4 none⟩,
          update_token E (some (create_refresh_token key E now4 none))
            (update_token E (some (create_refresh_token key E now3 none))
              (update_token E none db)), ?_⟩
        simp [refresh_token_route, hdec4', hdb3']
      · simp [login, hdb', hv, hc] at hlogin
    · simp [login, hdb', hv] at hlogin

/-- Witness for C1 at concrete inputs: identity `a@x.com` stores a current
refresh token; presenting an older one of its chain fails and clears the
stored token, after which even the current token is rejected, and a fresh
login rewrites the stored refresh token. -/
theorem refresh_replay_locks_out_witness :
    refresh_token_route "k"
        (.signed ⟨some "a@x.com", 0, 2000, some "refresh_token"⟩ "k") 500
        [{ id := 1, username := "u", email := "a@x.com", email_confirm := true,
           password := get_hash_password "pw12345", avatar := none,
           refresh_token := some (.signed ⟨some "a@x.com", 100, 2100, some "refresh_token"⟩ "k"),
           password_reset_token := none }]
      = (.error (.unauthorized "Invalid refresh token"),
         update_token "a@x.com" none
           [{ id := 1, username := "u", email := "a@x.com", email_confirm := true,
              password := get_hash_password "pw12345", avatar := none,
              refresh_token := some (.signed ⟨some "a@x.com", 100, 2100, some "refresh_token"⟩ "k"),
              password_reset_token := none }])
    ∧ (refresh_token_route "k"
        (.signed ⟨some "a@x.com", 100, 2100, some "refresh_token"⟩ "k") 600
        (update_token "a@x.com" none
          [{ id := 1, username := "u", email := "a@x.com", email_confirm := true,
             password := get_hash_password "pw12345", avatar := none,
             refresh_token := some (.signed ⟨some "a@x.com", 100, 2100, some "refresh_token"⟩ "k"),
             password_reset_token := none }])).1
      = .error (.unauthorized "Invalid refresh token")
    ∧ get_user_by_email "a@x.com"
        (update_token "a@x.com"
          (some (create_refresh_token "k" "a@x.com" 700 none))
          (update_token "a@x.com" none
            [{ id := 1, username := "u", email := "a@x.com", email_confirm := true,
               password := get_hash_password "pw12345", avatar := none,
               refresh_token := some (.signed ⟨some "a@x.com", 100, 2100, some "refresh_token"⟩ "k"),
               password_reset_token := none }]))
      = some { id := 1, username := "u", email := "a@x.com", email_confirm := true,
               password := get_hash_password "pw12345", avatar := none,
               refresh_token := some (create_refresh_token "k" "a@x.com" 700 none),
               password_reset_token := none } := by
  have h := refresh_replay_locks_out "k"
    [{ id := 1, username := "u", email := "a@x.com", email_confirm := true,
       password := get_hash_password "pw12345", avatar := none,
       refresh_token := some (.signed ⟨some "a@x.com", 100, 2100, some "refresh_token"⟩ "k"),
       password_reset_token := none }]
    "a@x.com"
    { id := 1, username := "u", email := "a@x.com", email_confirm := true,
      password := get_hash_password "pw12345", avatar := none,
      refresh_token := some (.signed ⟨some "a@x.com", 100, 2100, some "refresh_token"⟩ "k"),
      password_reset_token := none }
    (.signed ⟨some "a@x.com", 0, 2000, some "refresh_token"⟩ "k") 500
    rfl rfl (by decide)
  refine ⟨h.1, h.2.2.1 (.signed ⟨some "a@x.com", 100, 2100, some "refresh_token"⟩ "k") 600 rfl,
    ?_⟩
  exact (h.2.2.2 "pw12345" 700
    ⟨create_access_token "k" "a@x.com" 700 none, create_refresh_token "k" "a@x.com" 700 none⟩
    (update_token "a@x.com" (some (create_refresh_token "k" "a@x.com" 700 none))
      (update_token "a@x.com" none
        [{ id := 1, username := "u", email := "a@x.com", email_confirm := true,
           password := get_hash_password "pw12345", avatar := none,
           refresh_token := some (.signed ⟨some "a@x.com", 100, 2100, some "refresh_token"⟩ "k"),
           password_reset_token := none }]))
    rfl).1

end Hw14
